import Mathlib

/-!
Verification development for the `collectors` repository: a shallow
embedding of the shared reliability harness (retry wrapper, token-bucket
rate limiter) and of the per-connector `fetch` aggregation logic
(PyTrends, GNews, Reddit, YouTube), together with theorems settling the
frozen claims about the natural-language specification.

Modelling conventions:
* Python exceptions become values of the inductive type `PyException`;
  `try/except` becomes matching on `Except PyException α`.
* Network calls (the low-level client methods) are oracles: they enter the
  model as explicit arguments of type `Except PyException α` (or functions
  producing such), one outcome per call site; the collector logic that
  consumes them is translated line by line from the source.
* Wall-clock time enters the rate-limiter model as an explicit
  non-negative `elapsed` argument per `acquire()` call (the source reads
  `time.monotonic()` lazily, so only elapsed differences matter).
* Machine floats in the rate limiter / backoff arithmetic are modelled as
  `ℚ` (the quantities involved are exact small rationals).
-/

namespace Collectors

/-- Python exception values relevant to the harness, as raised by the code
under `src/src/connectors`.  `httpStatusError` and `httpRequestError` are
the two branches of the `httpx.HTTPError` hierarchy; `timeoutError` is
`asyncio.TimeoutError`.  The remaining constructors are the repository's
own taxonomy from `common/exceptions.py` plus the builtin `ValueError` /
`KeyError` raised during parsing. -/
inductive PyException where
  | httpStatusError (msg : String)
  | httpRequestError (msg : String)
  | timeoutError (msg : String)
  | authenticationError (msg : String)
  | rateLimitError (msg : String)
  | dataFetchError (msg : String)
  | invalidConfigError (msg : String)
  | valueError (msg : String)
  | keyError (msg : String)
  | otherError (msg : String)
deriving Repr, DecidableEq

/-- `str(e)` for the modelled exceptions: the message they were
constructed with. -/
def PyException.str : PyException → String
  | .httpStatusError m => m
  | .httpRequestError m => m
  | .timeoutError m => m
  | .authenticationError m => m
  | .rateLimitError m => m
  | .dataFetchError m => m
  | .invalidConfigError m => m
  | .valueError m => m
  | .keyError m => m
  | .otherError m => m

/-- The retry predicate of `with_retry` (`common/http.py`, line 35):
`retry_if_exception_type((httpx.HTTPError, asyncio.TimeoutError))`.
`httpx.HTTPStatusError` and `httpx.RequestError` are the subclasses of
`httpx.HTTPError`; no repository exception (`ConnectorError` subclasses)
and no builtin parsing error is an instance of either type. -/
def isRetryableException : PyException → Bool
  | .httpStatusError _ => true
  | .httpRequestError _ => true
  | .timeoutError _ => true
  | _ => false

/-- Python's builtin `min` on two numbers (ties keep the first argument);
spelled out so that concrete runs reduce in the kernel. -/
def pyMin (a b : ℚ) : ℚ := if a ≤ b then a else b

/-- Python's builtin `max` on two numbers (ties keep the first
argument). -/
def pyMax (a b : ℚ) : ℚ := if b ≤ a then a else b

/-- tenacity's `wait_exponential(multiplier, max=maxW, exp_base=2, min=minW)`
evaluated at a given 1-based `attemptNumber` (tenacity `wait.py`):
`max(max(0, min), min(multiplier * 2 ** (attempt_number - 1), max))`. -/
def wait_exponential (multiplier minW maxW : ℚ) (attemptNumber : ℕ) : ℚ :=
  pyMax (pyMax 0 minW) (pyMin (multiplier * 2 ^ (attemptNumber - 1)) maxW)

/-- Result of running a tenacity-wrapped call to completion:
`success v` — some attempt returned `v`;
`raised e` — an attempt raised an exception outside the retry set, which
tenacity re-raises unchanged (`fut.result()` in `BaseRetrying.iter`);
`retryError last` — the stop condition fired after a retryable failure, so
tenacity raises `RetryError` wrapping the last attempt (`reraise` is left
at its default `False` by `with_retry`, so the underlying exception is NOT
re-raised unchanged here). -/
inductive RetryOutcome (α : Type) where
  | success (v : α)
  | raised (e : PyException)
  | retryError (last : PyException)
deriving Repr, DecidableEq

/-- The attempt loop of tenacity's `BaseRetrying.iter` specialised to
`with_retry(max_attempts, min_wait, max_wait)`.  `outcomes n` is the
result of the n-th invocation of the wrapped operation (1-based).
`remaining` stands for `max_attempts - attemptNumber`, so that
`remaining = 0` is exactly tenacity's stop test
`stop_after_attempt: attempt_number >= max_attempts` (this substitution
makes the recursion structural).  The second component collects the
backoff sleeps performed, in order: a sleep of
`wait_exponential(1, min_wait, max_wait)` at the current attempt number
happens exactly when a retryable failure passes the stop test. -/
def retryLoop (outcomes : ℕ → Except PyException α) (minW maxW : ℚ) :
    ℕ → ℕ → RetryOutcome α × List ℚ
  | attemptNumber, remaining =>
    match outcomes attemptNumber with
    | .ok v => (.success v, [])
    | .error e =>
      if isRetryableException e then
        match remaining with
        | 0 => (.retryError e, [])
        | r + 1 =>
          let w := wait_exponential 1 minW maxW attemptNumber
          let rest := retryLoop outcomes minW maxW (attemptNumber + 1) r
          (rest.1, w :: rest.2)
      else (.raised e, [])

/-- A call to an async operation decorated with
`with_retry(max_attempts, min_wait, max_wait)` (`common/http.py`,
lines 15-36), given the per-invocation outcomes.  Attempt numbering starts
at 1 and `remaining = max_attempts - 1`. -/
def with_retry_run (max_attempts : ℕ) (minW maxW : ℚ)
    (outcomes : ℕ → Except PyException α) : RetryOutcome α × List ℚ :=
  retryLoop outcomes minW maxW 1 (max_attempts - 1)

/-- Token-bucket rate limiter state (`common/http.py`, lines 39-60): the
`last_update` timestamp is replaced by passing the elapsed time into each
`acquire`. -/
structure RateLimiter where
  rate : ℚ
  tokens : ℚ
deriving Repr, DecidableEq

/-- `RateLimiter.__init__(requests_per_minute)`: a full bucket. -/
def RateLimiter.init (requests_per_minute : ℚ) : RateLimiter :=
  { rate := requests_per_minute, tokens := requests_per_minute }

/-- `RateLimiter.acquire()` (`common/http.py`, lines 62-84), with
`elapsed = now - self.last_update` given as an argument.  Returns the
state after the call and the duration of the `asyncio.sleep` performed
(0 when a token was available). -/
def RateLimiter.acquire (s : RateLimiter) (elapsed : ℚ) : RateLimiter × ℚ :=
  let tokens := pyMin s.rate (s.tokens + elapsed * (s.rate / 60))
  if tokens < 1 then
    ({ s with tokens := 0 }, (1 - tokens) * (60 / s.rate))
  else
    ({ s with tokens := tokens - 1 }, 0)

/-- Run a sequence of `acquire()` calls; `elapseds` gives, for each call,
the wall-clock time elapsed since the previous update. -/
def RateLimiter.run (s : RateLimiter) : List ℚ → RateLimiter
  | [] => s
  | e :: es => ((s.acquire e).1).run es

/-- The sleeps performed by a sequence of `acquire()` calls. -/
def RateLimiter.runSleeps (s : RateLimiter) : List ℚ → List ℚ
  | [] => []
  | e :: es =>
    let step := s.acquire e
    step.2 :: step.1.runSleeps es

/-! ## Twitter client (`twitter/client.py`) -/

/-- One transport-level outcome for the HTTP GET performed inside
`TwitterClient.search_recent`: either a response (with its status code and
JSON body, the latter abstracted to its raw text) or an
`httpx.RequestError` raised by the transport. -/
inductive TwitterTransport where
  | response (statusCode : ℕ) (body : String)
  | requestError (msg : String)
deriving Repr, DecidableEq

/-- The body of `TwitterClient.search_recent` (`twitter/client.py`,
lines 86-107) for one invocation: 401 raises `AuthenticationError`, 429
raises `RateLimitError`; `response.raise_for_status()` raises
`httpx.HTTPStatusError` for 400-599, which the handler converts to
`DataFetchError("Twitter API error: ...")`; an `httpx.RequestError` from
the GET is converted to `DataFetchError("Twitter request failed: ...")`;
otherwise the JSON body is returned. -/
def search_recent_once (t : TwitterTransport) : Except PyException String :=
  match t with
  | .requestError m => .error (.dataFetchError ("Twitter request failed: " ++ m))
  | .response code body =>
    if code = 401 then .error (.authenticationError "Invalid Twitter bearer token")
    else if code = 429 then .error (.rateLimitError "Twitter API rate limit exceeded")
    else if 400 ≤ code ∧ code ≤ 599 then
      .error (.dataFetchError ("Twitter API error: HTTP " ++ toString code))
    else .ok body

/-- `TwitterClient.search_recent` as decorated with
`@with_retry(max_attempts=3)` (so `min_wait=1`, `max_wait=10`), given the
transport outcome of each invocation. -/
def search_recent_run (transports : ℕ → TwitterTransport) : RetryOutcome String × List ℚ :=
  with_retry_run 3 1 10 (fun n => search_recent_once (transports n))

/-! ## PyTrends collector (`pytrends/collector.py`, `pytrends/models.py`) -/

/-- `TrendData` (`pytrends/models.py`): one interest-over-time point.
Dates are abstracted to their string representation; `isPartial` is the
source's `is_partial` field. -/
structure TrendData where
  keyword : String
  date : String
  interest : ℤ
  isPartial : Bool
deriving Repr, DecidableEq

/-- `RelatedQuery` (`pytrends/models.py`). -/
structure RelatedQuery where
  query : String
  value : ℤ
deriving Repr, DecidableEq

/-- `PyTrendsCollectSpec` (`pytrends/models.py`), the fields read by
`fetch`. -/
structure PyTrendsCollectSpec where
  keywords : List String
  timeframe : String
  geo : String
  category : ℤ
  include_related_queries : Bool
  include_interest_by_region : Bool
deriving Repr, DecidableEq

/-- `PyTrendsResult` (`pytrends/models.py`).  The pydantic dict fields
become association lists; `collected_at` (wall clock) is not modelled. -/
structure PyTrendsResult where
  keywords : List String
  timeframe : String
  geo : String
  interest_over_time : List TrendData
  related_queries_top : List (String × List RelatedQuery)
  related_queries_rising : List (String × List RelatedQuery)
  interest_by_region : List (String × List (String × ℤ))
  status : String
  error : Option String
deriving Repr, DecidableEq

/-- The `interest_over_time` DataFrame returned by
`PyTrendsClient.get_interest_over_time`, after the collector drops the
`isPartial` column: `rows` holds, per date index value, the keyword
columns present in that row; `isPartialCol` is the raw `isPartial` column
when the frame had one (`df_interest.get("isPartial")`). -/
structure InterestFrame where
  rows : List (String × List (String × ℤ))
  isPartialCol : Option (List Bool)
deriving Repr, DecidableEq

/-- The per-keyword `{"top": df, "rising": df}` dict entries returned by
`PyTrendsClient.get_related_queries`; `none` models a missing key or a
non-DataFrame value, each frame is its `(query, value)` rows.  (The
source's "Breakout" sentinel only arises because pandas stores the value
column as strings; the typed model carries integer values.) -/
structure RelatedFrames where
  top : Option (List (String × ℤ))
  rising : Option (List (String × ℤ))
deriving Repr, DecidableEq

/-- The `interest_by_region` DataFrame: one `(region, value)` column per
keyword. -/
structure RegionFrame where
  cols : List (String × List (String × ℤ))
deriving Repr, DecidableEq

/-- `df.empty` for the region frame: no cell in any column. -/
def RegionFrame.isEmpty (f : RegionFrame) : Bool :=
  f.cols.all (fun c => c.2.isEmpty)

/-- The interest-over-time processing loop of `PyTrendsCollector.fetch`
(`pytrends/collector.py`, lines 97-124): for each row and each requested
keyword present in the row, append a `TrendData`; `is_partial` is the last
value of the `isPartial` column when that column exists and the row is the
last one, else `False`. -/
def processInterest (keywords : List String) (f : InterestFrame) : List TrendData :=
  if f.rows.isEmpty then []
  else
    let lastDate := (f.rows.getLast?).map (fun r => r.1)
    f.rows.foldl (fun acc dr =>
      acc ++ keywords.filterMap (fun kw =>
        (dr.2.lookup kw).map (fun v =>
          { keyword := kw, date := dr.1, interest := v,
            isPartial :=
              match f.isPartialCol with
              | some col => decide (some dr.1 = lastDate) && ((col.getLast?).getD false)
              | none => false }))) []

/-- The related-queries processing loop of `PyTrendsCollector.fetch`
(`pytrends/collector.py`, lines 146-179): for each requested keyword with
an entry, a present non-empty `top` (resp. `rising`) frame contributes its
rows as `RelatedQuery` values under that keyword. -/
def processRelated (keywords : List String) (related : List (String × RelatedFrames)) :
    List (String × List RelatedQuery) × List (String × List RelatedQuery) :=
  (keywords.filterMap (fun kw =>
     (related.lookup kw).bind (fun kd =>
       kd.top.bind (fun tdf =>
         if tdf.isEmpty then none
         else some (kw, tdf.map (fun r => { query := r.1, value := r.2 }))))),
   keywords.filterMap (fun kw =>
     (related.lookup kw).bind (fun kd =>
       kd.rising.bind (fun rdf =>
         if rdf.isEmpty then none
         else some (kw, rdf.map (fun r => { query := r.1, value := r.2 }))))))

/-- The interest-by-region processing of `PyTrendsCollector.fetch`
(`pytrends/collector.py`, lines 202-208): for each requested keyword that
is a column, keep the `(region, value)` pairs with positive value. -/
def processRegion (keywords : List String) (f : RegionFrame) :
    List (String × List (String × ℤ)) :=
  if f.isEmpty then []
  else
    keywords.filterMap (fun kw =>
      (f.cols.lookup kw).map (fun col => (kw, col.filter (fun rv => 0 < rv.2))))

/-- The client-call outcomes consumed by one `PyTrendsCollector.fetch`
run, one oracle per call site. -/
structure PyTrendsClientOracle where
  get_interest_over_time : Except PyException InterestFrame
  get_related_queries : Except PyException (List (String × RelatedFrames))
  get_interest_by_region : Except PyException RegionFrame

/-- `PyTrendsCollector.fetch` (`pytrends/collector.py`, lines 40-223).
The result starts with the echoed request parameters and the pydantic
defaults (`status="success"`, `error=None`, empty collections).  A
failure of the critical `get_interest_over_time` call sets
`status="failed"` and `error` and returns immediately; failures of the
two optional calls are logged and skipped; on the success path
`status="success"` is (re)assigned at the end. -/
def PyTrendsCollector.fetch (spec : PyTrendsCollectSpec)
    (client : PyTrendsClientOracle) : PyTrendsResult :=
  let result : PyTrendsResult :=
    { keywords := spec.keywords, timeframe := spec.timeframe, geo := spec.geo,
      interest_over_time := [], related_queries_top := [],
      related_queries_rising := [], interest_by_region := [],
      status := "success", error := none }
  match client.get_interest_over_time with
  | .error e =>
      { result with status := "failed",
                    error := some ("Failed to fetch interest over time: " ++ e.str) }
  | .ok df =>
      let result := { result with interest_over_time := processInterest spec.keywords df }
      let result :=
        if spec.include_related_queries then
          match client.get_related_queries with
          | .error _ => result
          | .ok related =>
              let tr := processRelated spec.keywords related
              { result with related_queries_top := tr.1,
                            related_queries_rising := tr.2 }
        else result
      let result :=
        if spec.include_interest_by_region then
          match client.get_interest_by_region with
          | .error _ => result
          | .ok rf => { result with interest_by_region := processRegion spec.keywords rf }
        else result
      { result with status := "success" }

/-! ## GNews collector (`gnews/collector.py`, `gnews/models.py`) -/

/-- One raw article dict from the GNews API response
(`data["articles"][i]`): `none` in a field models a missing key (for
`title`, `url`, `publishedAt` the source indexes with `[...]`, so a
missing key raises `KeyError`; the other fields use `.get` with a
default).  `source_name`/`source_url` flatten the nested `source` dict. -/
structure RawArticle where
  title : Option String
  description : Option String
  content : Option String
  url : Option String
  image : Option String
  publishedAt : Option String
  source_name : Option String
  source_url : Option String
deriving Repr, DecidableEq

/-- `GNewsArticle` (`gnews/models.py`); the parsed datetime is abstracted
to the normalised string accepted by the parser, and `collected_at`
(wall clock) is not modelled. -/
structure GNewsArticle where
  title : String
  description : String
  content : String
  url : String
  image : Option String
  published_at : String
  source_name : String
  source_url : String
deriving Repr, DecidableEq

/-- `GNewsCollectSpec` (`gnews/models.py`), the fields read by `fetch`;
the dates and sorting only parameterise the HTTP request, which is an
oracle here. -/
structure GNewsCollectSpec where
  query : String
  language : Option String
  country : Option String
  category : Option String
  max_results : ℕ
deriving Repr, DecidableEq

/-- `GNewsResult` (`gnews/models.py`); `collected_at` is not modelled. -/
structure GNewsResult where
  articles : List GNewsArticle
  total_articles : ℕ
  query : String
  language : Option String
  country : Option String
  category : Option String
  status : String
  error : Option String
deriving Repr, DecidableEq

/-- The per-article body of the loop in `GNewsCollector.fetch`
(`gnews/collector.py`, lines 100-118): parse `publishedAt` (a missing key
raises `KeyError`; `datetime.fromisoformat` of the `Z`-normalised string,
abstracted as the `fromisoformat` oracle over the standard library,
raises `ValueError` when it returns `none`), then build the article
(missing `title` / `url` keys raise `KeyError`, in that evaluation
order; the remaining fields fall back to their `.get` defaults). -/
def process_article (fromisoformat : String → Option String) (a : RawArticle) :
    Except PyException GNewsArticle :=
  match a.publishedAt with
  | none => .error (.keyError "publishedAt")
  | some s =>
    match fromisoformat (s.replace "Z" "+00:00") with
    | none => .error (.valueError ("Invalid isoformat string: " ++ s))
    | some published_at =>
      match a.title with
      | none => .error (.keyError "title")
      | some title =>
        match a.url with
        | none => .error (.keyError "url")
        | some url =>
          .ok { title := title, description := a.description.getD "",
                content := a.content.getD "", url := url, image := a.image,
                published_at := published_at,
                source_name := a.source_name.getD "Unknown",
                source_url := a.source_url.getD "" }

/-- `GNewsCollector.fetch` (`gnews/collector.py`, lines 38-138).  The
critical section (opening the client and `client.search`) enters as the
`search` oracle, already projected to `data.get("articles", [])`; its
failure sets `status="failed"`/`error`.  Per-article failures are caught
inside the loop and the loop continues (`filterMap` keeps exactly the
articles whose processing did not raise). -/
def GNewsCollector.fetch (spec : GNewsCollectSpec)
    (fromisoformat : String → Option String)
    (search : Except PyException (List RawArticle)) : GNewsResult :=
  let result : GNewsResult :=
    { articles := [], total_articles := 0, query := spec.query,
      language := spec.language, country := spec.country,
      category := spec.category, status := "success", error := none }
  match search with
  | .error e => { result with status := "failed", error := some e.str }
  | .ok articles_data =>
    let articles := articles_data.filterMap
      (fun a => (process_article fromisoformat a).toOption)
    { result with total_articles := articles_data.length,
                  articles := articles, status := "success" }

/-! ## Reddit collector (`reddit/collector.py`, `reddit/models.py`) -/

/-- The asyncpraw submission attributes read by `RedditCollector.fetch`
(typed; `getattr(submission, 'stickied', False)` becomes a plain
field). -/
structure Submission where
  id : String
  title : String
  selftext : Option String
  author : Option String
  created_utc : ℤ
  num_comments : ℤ
  score : ℤ
  permalink : String
  stickied : Bool
deriving Repr, DecidableEq

/-- `RedditCollectSpec` (`reddit/models.py`), the fields read by
`fetch`. -/
structure RedditCollectSpec where
  subreddits : List String
  sort : String
  time_filter : String
  max_posts_per_subreddit : ℕ
  include_comments : Bool
  skip_stickied : Bool
deriving Repr, DecidableEq

/-- `RedditPost` (`reddit/models.py`); `created_at` keeps the source
timestamp number. -/
structure RedditPost where
  id : String
  title : String
  text : String
  author : Option String
  created_at : ℤ
  num_comments : ℤ
  score : ℤ
  url : String
  subreddit : String
  stickied : Bool
  comments : List String
deriving Repr, DecidableEq

/-- The per-submission body of the inner loop of `RedditCollector.fetch`
(`reddit/collector.py`, lines 75-114): skip stickied posts when
requested (`continue`), fetch comments when requested (the oracle's
failure is the per-item exception, caught and logged), then build the
typed post.  `none` means the submission contributes no post (skipped or
failed). -/
def process_submission (spec : RedditCollectSpec)
    (fetch_comments : Submission → Except PyException (List String))
    (subreddit_name : String) (s : Submission) : Option RedditPost :=
  if spec.skip_stickied && s.stickied then none
  else
    match (if spec.include_comments then fetch_comments s else .ok []) with
    | .error _ => none
    | .ok comments =>
      some { id := s.id, title := s.title, text := s.selftext.getD "",
             author := s.author, created_at := s.created_utc,
             num_comments := s.num_comments, score := s.score,
             url := "https://reddit.com" ++ s.permalink,
             subreddit := subreddit_name, stickied := s.stickied,
             comments := comments }

/-- `RedditCollector.fetch` (`reddit/collector.py`, lines 32-123): for
each subreddit, fetch its submissions (a failure is caught, logged, and
the loop continues with the next subreddit) and process each submission
(per-item failures likewise only skip that item).  Returns the
accumulated `all_posts`. -/
def RedditCollector.fetch (spec : RedditCollectSpec)
    (fetch_submissions : String → Except PyException (List Submission))
    (fetch_comments : Submission → Except PyException (List String)) :
    List RedditPost :=
  spec.subreddits.foldl (fun all_posts subreddit_name =>
    match fetch_submissions subreddit_name with
    | .error _ => all_posts
    | .ok submissions =>
      all_posts ++ submissions.filterMap
        (process_submission spec fetch_comments subreddit_name)) []

/-! ## YouTube utilities (`youtube/utils.py`) -/

/-- The character class `[a-zA-Z0-9_-]` of the video-id capture group. -/
def isVideoIdChar (c : Char) : Bool :=
  c.isAlpha || c.isDigit || c = '_' || c = '-'

/-- Match a literal prefix against a character list, returning the
remainder on success. -/
def charPrefixMatch : List Char → List Char → Option (List Char)
  | [], rest => some rest
  | _ :: _, [] => none
  | p :: ps, c :: cs => if c = p then charPrefixMatch ps cs else none

/-- Strip the optional `(?:https?://)?` prefix.  Because `www.`,
`youtube.com` and `youtu.be` do not start with `h`, the regex can match
with the optional group unconsumed only when the string does not start
with a scheme, so greedy stripping is equivalent to the regex. -/
def stripScheme (cs : List Char) : List Char :=
  match charPrefixMatch "https://".toList cs with
  | some rest => rest
  | none =>
    match charPrefixMatch "http://".toList cs with
    | some rest => rest
    | none => cs

/-- Strip the optional `(?:www\.)?` prefix (same reasoning: the literal
alternatives start with `y`, not `w`). -/
def stripWWW (cs : List Char) : List Char :=
  match charPrefixMatch "www.".toList cs with
  | some rest => rest
  | none => cs

/-- `re.match` of one of the four patterns of `youtube/utils.py` against
`url`: after the optional scheme and `www.`, the literal host/path prefix
must follow, then at least 11 characters of the id class; the capture is
those 11 characters (`re.match` only anchors at the start, so trailing
text is allowed). -/
def matchYouTubePattern (hostPrefix : String) (url : String) : Option String :=
  let rest := stripWWW (stripScheme url.toList)
  match charPrefixMatch hostPrefix.toList rest with
  | none => none
  | some tail =>
    let idChars := tail.take 11
    if idChars.length = 11 && idChars.all isVideoIdChar then
      some (String.mk idChars)
    else none

/-- The literal parts of `youtube_patterns`, in source order. -/
def youtube_patterns : List String :=
  ["youtube.com/watch?v=", "youtu.be/", "youtube.com/embed/", "youtube.com/v/"]

/-- `validate_youtube_url` (`youtube/utils.py`, lines 7-34). -/
def validate_youtube_url (url : String) : Bool :=
  youtube_patterns.any (fun p => (matchYouTubePattern p url).isSome)

/-- `extract_video_id` (`youtube/utils.py`, lines 37-63): the capture of
the first matching pattern. -/
def extract_video_id (url : String) : Option String :=
  (youtube_patterns.filterMap (fun p => matchYouTubePattern p url)).head?

/-! ## YouTube collector (`youtube/collector.py`, `youtube/models.py`) -/

/-- `YouTubeClientConfig` (`youtube/models.py`), the field read by
`_process_video`. -/
structure YouTubeClientConfig where
  max_video_length : ℤ
deriving Repr, DecidableEq

/-- `YouTubeCollectSpec` (`youtube/models.py`), the fields read by
`fetch`. -/
structure YouTubeCollectSpec where
  urls : Option (List String)
  channels : Option (List String)
  max_videos_per_channel : ℕ
  days_back : ℕ
deriving Repr, DecidableEq

/-- The metadata dict returned by `YouTubeClient.get_video_metadata`, at
the keys `_process_video` reads. -/
structure VideoMetadata where
  title : String
  description : String
  duration : ℤ
  upload_date : Option String
  view_count : ℤ
  like_count : ℤ
  channel : String
  channel_id : String
  tags : List String
  categories : List String
  thumbnail : String
deriving Repr, DecidableEq

/-- `YouTubeVideo` (`youtube/models.py`); `processed_at` (wall clock) and
the whisper language fields (never set by the collector) are not
modelled. -/
structure YouTubeVideo where
  video_id : String
  url : String
  title : String
  description : String
  duration : ℤ
  upload_date : Option String
  view_count : ℤ
  like_count : ℤ
  channel : String
  channel_id : String
  tags : List String
  categories : List String
  thumbnail : String
  transcript : String
  transcript_source : String
  status : String
  error : Option String
deriving Repr, DecidableEq

/-- The client-call outcomes consumed by one `YouTubeCollector.fetch`
run. -/
structure YouTubeClientOracle where
  get_channel_videos : String → Except PyException (List String)
  get_video_metadata : String → Except PyException VideoMetadata
  get_transcript : String → Except PyException (String × String)

/-- The failed record built by the `except` handler of `_process_video`
(`youtube/collector.py`, lines 203-226). -/
def failedVideo (video_id url : String) (e : PyException) : YouTubeVideo :=
  { video_id := video_id, url := url, title := "", description := "",
    duration := 0, upload_date := none, view_count := 0, like_count := 0,
    channel := "", channel_id := "", tags := [], categories := [],
    thumbnail := "", transcript := "", transcript_source := "",
    status := "failed", error := some e.str }

/-- `YouTubeCollector._process_video` (`youtube/collector.py`,
lines 154-226): extract the video id (`ValueError` when impossible),
fetch metadata, raise `ValueError("Video too long: ...")` when the
duration exceeds `config.max_video_length`, fetch the transcript, and
build the success record; any raised exception is caught and turned into
a failed record carrying `video_id or 'unknown'` and `str(e)`. -/
def process_video (cfg : YouTubeClientConfig) (client : YouTubeClientOracle)
    (url : String) : YouTubeVideo :=
  match extract_video_id url with
  | none => failedVideo "unknown" url (.valueError ("Could not extract video ID from " ++ url))
  | some video_id =>
    match client.get_video_metadata url with
    | .error e => failedVideo video_id url e
    | .ok metadata =>
      if cfg.max_video_length < metadata.duration then
        failedVideo video_id url
          (.valueError ("Video too long: " ++ toString metadata.duration ++
            "s (max: " ++ toString cfg.max_video_length ++ "s)"))
      else
        match client.get_transcript video_id with
        | .error e => failedVideo video_id url e
        | .ok ts =>
          { video_id := video_id, url := url, title := metadata.title,
            description := metadata.description, duration := metadata.duration,
            upload_date := metadata.upload_date, view_count := metadata.view_count,
            like_count := metadata.like_count, channel := metadata.channel,
            channel_id := metadata.channel_id, tags := metadata.tags,
            categories := metadata.categories, thumbnail := metadata.thumbnail,
            transcript := ts.1, transcript_source := ts.2,
            status := "success", error := none }

/-- Python truthiness of the optional url/channel lists (`if spec.urls:`):
`None` and the empty list are falsy. -/
def truthyList : Option (List String) → Bool
  | none => false
  | some l => !l.isEmpty

/-- The stub built by `fetch` for an exception surfaced by
`asyncio.gather(..., return_exceptions=True)` (`youtube/collector.py`,
lines 119-141). -/
def gatherFailedVideo (url : String) (e : PyException) : YouTubeVideo :=
  { video_id := "unknown", url := url, title := "", description := "",
    duration := 0, upload_date := none, view_count := 0, like_count := 0,
    channel := "", channel_id := "", tags := [], categories := [],
    thumbnail := "", transcript := "", transcript_source := "",
    status := "failed", error := some e.str }

/-- `YouTubeCollector.fetch` (`youtube/collector.py`, lines 35-152):
collect the valid direct URLs, then the URLs of each requested channel
(a channel task that raised is logged and contributes nothing), return
`[]` when no URL remains; otherwise fan out `_process_video` over all
URLs (`asyncio.gather` with `return_exceptions=True`; in the model
`_process_video` is total, so every task outcome is `.ok`) and convert
any raised task outcome into a failed stub. -/
def YouTubeCollector.fetch (cfg : YouTubeClientConfig)
    (client : YouTubeClientOracle) (spec : YouTubeCollectSpec) :
    List YouTubeVideo :=
  let url_list :=
    if truthyList spec.urls then (spec.urls.getD []).filter validate_youtube_url
    else []
  let channel_urls :=
    if truthyList spec.channels then
      (spec.channels.getD []).foldl (fun acc ch =>
        match client.get_channel_videos ch with
        | .error _ => acc
        | .ok us => acc ++ us) []
    else []
  let all_urls := url_list ++ channel_urls
  if all_urls.isEmpty then []
  else
    let results : List (String × Except PyException YouTubeVideo) :=
      all_urls.map (fun u => (u, .ok (process_video cfg client u)))
    results.map (fun ur =>
      match ur.2 with
      | .ok v => v
      | .error e => gatherFailedVideo ur.1 e)

/-- The spec's token-bucket invariant for a limiter of capacity `C`:
the stored rate is `C` and `0 <= tokens <= capacity`. -/
def RateLimiterInv (C : ℚ) (s : RateLimiter) : Prop :=
  s.rate = C ∧ 0 ≤ s.tokens ∧ s.tokens ≤ C

/-! ## Helper lemmas about the retry loop -/

/-- If every attempt from `a` up to (excluding) `a + r` fails with a
retryable exception and attempt `a + r` succeeds with `v`, the loop
returns `success v`. -/
theorem retryLoop_success (outcomes : ℕ → Except PyException α) (minW maxW : ℚ) (v : α) :
    ∀ (r a : ℕ),
      (∀ k, a ≤ k → k < a + r →
        ∃ e, outcomes k = .error e ∧ isRetryableException e = true) →
      outcomes (a + r) = .ok v →
      (retryLoop outcomes minW maxW a r).1 = .success v := by
  intro r
  induction r with
  | zero =>
    intro a _ hok
    rw [retryLoop]
    simp only [Nat.add_zero] at hok
    rw [hok]
  | succ n ih =>
    intro a hfail hok
    obtain ⟨e, he, hre⟩ := hfail a le_rfl (by omega)
    rw [retryLoop, he]
    simp only [hre, if_true]
    have := ih (a + 1)
      (fun k hk1 hk2 => hfail k (by omega) (by omega))
      (by rw [show a + 1 + n = a + (n + 1) by omega]; exact hok)
    simpa using this

/-- If every attempt from `a` up to (including) `a + r` fails with a
retryable exception, the loop raises tenacity's `RetryError` wrapping the
last attempt's exception. -/
theorem retryLoop_exhaust (outcomes : ℕ → Except PyException α) (minW maxW : ℚ)
    (err : ℕ → PyException) :
    ∀ (r a : ℕ),
      (∀ k, a ≤ k → k ≤ a + r →
        outcomes k = .error (err k) ∧ isRetryableException (err k) = true) →
      (retryLoop outcomes minW maxW a r).1 = .retryError (err (a + r)) := by
  intro r
  induction r with
  | zero =>
    intro a hfail
    obtain ⟨he, hre⟩ := hfail a le_rfl (by omega)
    rw [retryLoop, he]
    simp [hre]
  | succ n ih =>
    intro a hfail
    obtain ⟨he, hre⟩ := hfail a le_rfl (by omega)
    rw [retryLoop, he]
    simp only [hre, if_true]
    have := ih (a + 1) (fun k hk1 hk2 => hfail k (by omega) (by omega))
    rw [show a + 1 + n = a + (n + 1) by omega] at this
    simpa using this

/-- Under the same all-fail hypothesis, the sleeps performed are the
`wait_exponential` values at attempt numbers `a, a+1, ..., a+r-1`. -/
theorem retryLoop_sleeps (outcomes : ℕ → Except PyException α) (minW maxW : ℚ) :
    ∀ (r a : ℕ),
      (∀ k, a ≤ k → k ≤ a + r →
        ∃ e, outcomes k = .error e ∧ isRetryableException e = true) →
      (retryLoop outcomes minW maxW a r).2 =
        (List.range r).map (fun i => wait_exponential 1 minW maxW (a + i)) := by
  intro r
  induction r with
  | zero =>
    intro a hfail
    obtain ⟨e, he, hre⟩ := hfail a le_rfl (by omega)
    rw [retryLoop, he]
    simp [hre]
  | succ n ih =>
    intro a hfail
    obtain ⟨e, he, hre⟩ := hfail a le_rfl (by omega)
    rw [retryLoop, he]
    simp only [hre, if_true]
    have := ih (a + 1) (fun k hk1 hk2 => hfail k (by omega) (by omega))
    simp only [List.range_succ_eq_map, List.map_cons, List.map_map]
    refine congrArg₂ List.cons (by rw [Nat.add_zero]) ?_
    rw [this]
    exact List.map_congr_left (fun i _ => by
      simp only [Function.comp_apply]
      rw [show a + 1 + i = a + Nat.succ i by omega])

/-- Any exception raised by the body of `search_recent` has been
converted to a `ConnectorError` subclass, none of which is in the retry
set. -/
theorem search_recent_once_error_not_retryable (t : TwitterTransport) (e : PyException)
    (h : search_recent_once t = .error e) : isRetryableException e = false := by
  cases t with
  | requestError m =>
    simp only [search_recent_once, Except.error.injEq] at h
    rw [← h]; rfl
  | response code body =>
    simp only [search_recent_once] at h
    split_ifs at h <;> simp only [Except.error.injEq, reduceCtorEq] at h <;>
      rw [← h] <;> rfl

/-! ## Claim C1 -/

/-- C1 (counterexample): with `max_attempts = 3` and every invocation
failing with the same matching transient error, the wrapped call does NOT
re-raise the underlying error unchanged: it raises tenacity's
`RetryError` wrapper (the `retry(...)` call in `with_retry` leaves
`reraise=False`), which is a different outcome than re-raising the
`TimeoutError` itself. -/
theorem C1_counterexample :
    (with_retry_run 3 1 10
        (fun _ => (.error (.timeoutError "request timed out") : Except PyException String))).1 =
      .retryError (.timeoutError "request timed out") ∧
    RetryOutcome.retryError (PyException.timeoutError "request timed out") ≠
      (RetryOutcome.raised (PyException.timeoutError "request timed out") :
        RetryOutcome String) := by
  refine ⟨?_, fun h => RetryOutcome.noConfusion h⟩
  norm_num [with_retry_run, retryLoop, isRetryableException]

/-- C1 (amended): if the operation fails with matching transient errors on
each of its first `max_attempts - 1` invocations and succeeds on
invocation `max_attempts`, the wrapped call returns the success value;
if it fails with matching transient errors on all `max_attempts`
invocations, the wrapped call raises `tenacity.RetryError` wrapping the
last underlying error (not the underlying error itself, since `with_retry`
leaves tenacity's `reraise` at `False`). -/
theorem C1_retry_success_and_exhaustion (maxAttempts : ℕ) (minW maxW : ℚ)
    (outcomes : ℕ → Except PyException α) (err : ℕ → PyException) (v : α)
    (hpos : 1 ≤ maxAttempts) :
    ((∀ n, 1 ≤ n → n < maxAttempts →
        outcomes n = .error (err n) ∧ isRetryableException (err n) = true) →
      outcomes maxAttempts = .ok v →
      (with_retry_run maxAttempts minW maxW outcomes).1 = .success v) ∧
    ((∀ n, 1 ≤ n → n ≤ maxAttempts →
        outcomes n = .error (err n) ∧ isRetryableException (err n) = true) →
      (with_retry_run maxAttempts minW maxW outcomes).1 =
        .retryError (err maxAttempts)) := by
  constructor
  · intro hfail hok
    rw [with_retry_run]
    apply retryLoop_success
    · intro k hk1 hk2
      obtain ⟨he, hre⟩ := hfail k hk1 (by omega)
      exact ⟨err k, he, hre⟩
    · rw [show 1 + (maxAttempts - 1) = maxAttempts by omega]
      exact hok
  · intro hfail
    rw [with_retry_run]
    have := retryLoop_exhaust outcomes minW maxW err (maxAttempts - 1) 1
      (fun k hk1 hk2 => hfail k hk1 (by omega))
    rwa [show 1 + (maxAttempts - 1) = maxAttempts by omega] at this

/-- Witness for C1 at `max_attempts = 3`: two transient failures then a
success returns the success value; three transient failures yield the
`RetryError` outcome. -/
theorem C1_witness :
    (with_retry_run 3 1 10
        (fun n => if n < 3 then .error (.timeoutError "t") else .ok "v")).1 =
      .success "v" ∧
    (with_retry_run 3 1 10
        (fun _ => (.error (.timeoutError "t") : Except PyException String))).1 =
      .retryError (.timeoutError "t") := by
  constructor
  · exact (C1_retry_success_and_exhaustion 3 1 10
        (fun n => if n < 3 then .error (.timeoutError "t") else .ok "v")
        (fun _ => .timeoutError "t") "v" (by norm_num)).1
      (fun n h1 h2 => ⟨if_pos h2, rfl⟩)
      (if_neg (by omega))
  · exact (C1_retry_success_and_exhaustion 3 1 10
        (fun _ => (.error (.timeoutError "t") : Except PyException String))
        (fun _ => .timeoutError "t") "v" (by norm_num)).2
      (fun n h1 h2 => ⟨rfl, rfl⟩)

/-! ## Claim C2 -/

/-- C2 (counterexample): `TwitterClient.search_recent` converts a 500
response into `DataFetchError` INSIDE the decorated body, and
`DataFetchError` is not an `httpx.HTTPError` or `asyncio.TimeoutError`,
so the wrapper does not retry it: with a transport that fails on the
first invocation and would succeed on every later one, the decorated
call surfaces the `DataFetchError` immediately (no sleep, no retry)
instead of retrying to the success the claim predicts. -/
theorem C2_counterexample :
    search_recent_run (fun n => if n = 1 then .response 500 "" else .response 200 "ok") =
      (.raised (.dataFetchError ("Twitter API error: HTTP " ++ toString 500)), []) ∧
    (search_recent_run
        (fun n => if n = 1 then .response 500 "" else .response 200 "ok")).1 ≠
      .success "ok" := by
  constructor
  · norm_num [search_recent_run, with_retry_run, retryLoop, search_recent_once,
      isRetryableException]
  · intro h
    norm_num [search_recent_run, with_retry_run, retryLoop, search_recent_once,
      isRetryableException] at h
    exact RetryOutcome.noConfusion h

/-- C2 (amended): `with_retry` retries an invocation if and only if the
raised exception is in the declared transient set (`httpx.HTTPError`,
`asyncio.TimeoutError`): an exception outside the set — in particular
`AuthenticationError`, but also `DataFetchError` — propagates unchanged
immediately after the first attempt with no backoff sleep, while an
in-set exception leads to a backoff sleep and a second attempt.  Because
`search_recent` converts every httpx transport error to `DataFetchError`
inside the decorated body, the decorated `search_recent` never retries:
its outcome is always that of its first invocation. -/
theorem C2_retry_only_transient (maxAttempts : ℕ) (minW maxW : ℚ)
    (outcomes : ℕ → Except PyException α) (e : PyException)
    (transports : ℕ → TwitterTransport) (v : String) (eT : PyException) :
    (outcomes 1 = .error e → isRetryableException e = false →
      with_retry_run maxAttempts minW maxW outcomes = (.raised e, [])) ∧
    (outcomes 1 = .error e → isRetryableException e = true → 2 ≤ maxAttempts →
      with_retry_run maxAttempts minW maxW outcomes =
        ((retryLoop outcomes minW maxW 2 (maxAttempts - 2)).1,
          wait_exponential 1 minW maxW 1 ::
            (retryLoop outcomes minW maxW 2 (maxAttempts - 2)).2)) ∧
    (search_recent_once (transports 1) = .ok v →
      search_recent_run transports = (.success v, [])) ∧
    (search_recent_once (transports 1) = .error eT →
      search_recent_run transports = (.raised eT, [])) := by
  refine ⟨?_, ?_, ?_, ?_⟩
  · intro h hre
    rw [with_retry_run, retryLoop, h]
    simp [hre]
  · intro h hre hge
    rw [with_retry_run, show maxAttempts - 1 = (maxAttempts - 2) + 1 by omega,
      retryLoop, h]
    simp [hre]
  · intro h
    rw [search_recent_run, with_retry_run, retryLoop]
    simp only [h]
  · intro h
    rw [search_recent_run, with_retry_run, retryLoop]
    simp only [h]
    simp [search_recent_once_error_not_retryable (transports 1) eT h]

/-- Witness for C2: an `AuthenticationError` propagates unchanged after
the first attempt; a retryable first failure triggers the retry
continuation; the decorated `search_recent` surfaces its first
invocation's outcome both on success and on a `DataFetchError`. -/
theorem C2_witness :
    (with_retry_run 3 1 10
        (fun _ => (.error (.authenticationError "Invalid Twitter bearer token") :
          Except PyException String))) =
      (.raised (.authenticationError "Invalid Twitter bearer token"), []) ∧
    (with_retry_run 3 1 10
        (fun _ => (.error (.timeoutError "t") : Except PyException String))) =
      ((retryLoop (fun _ => (.error (.timeoutError "t") : Except PyException String))
          1 10 2 1).1,
        wait_exponential 1 1 10 1 ::
          (retryLoop (fun _ => (.error (.timeoutError "t") : Except PyException String))
            1 10 2 1).2) ∧
    search_recent_run (fun _ => .response 200 "ok") = (.success "ok", []) ∧
    search_recent_run (fun _ => .requestError "connection reset") =
      (.raised (.dataFetchError "Twitter request failed: connection reset"), []) := by
  refine ⟨?_, ?_, ?_, ?_⟩
  · exact (C2_retry_only_transient 3 1 10 _
      (.authenticationError "Invalid Twitter bearer token")
      (fun _ => .response 200 "ok") "ok" (.otherError "")).1 rfl rfl
  · exact (C2_retry_only_transient 3 1 10 _ (.timeoutError "t")
      (fun _ => .response 200 "ok") "ok" (.otherError "")).2.1 rfl rfl (by norm_num)
  · exact (C2_retry_only_transient 3 1 10
      (fun _ => (.error (.otherError "") : Except PyException String)) (.otherError "")
      (fun _ => .response 200 "ok") "ok" (.otherError "")).2.2.1 rfl
  · exact (C2_retry_only_transient 3 1 10
      (fun _ => (.error (.otherError "") : Except PyException String)) (.otherError "")
      (fun _ => .requestError "connection reset") "ok"
      (.dataFetchError "Twitter request failed: connection reset")).2.2.2 rfl

/-! ## Claim C3 -/

/-- C3 (counterexample): under the default policy
`(max_attempts=3, min_wait=1, max_wait=10)` with every invocation failing
with a matching `TimeoutError`, only TWO backoff sleeps happen, of 1s and
2s (tenacity sleeps between attempts, computing
`multiplier * 2^(attempt_number-1)` with `multiplier=1`), so the total
elapsed wait is 3s — not the three waits 1,2,4s totalling ≈7s the claim
states. -/
theorem C3_counterexample :
    (with_retry_run 3 1 10
        (fun _ => (.error (.timeoutError "request timed out") : Except PyException Unit))).2 =
      [1, 2] ∧
    ([1, 2] : List ℚ).sum = 3 ∧ ¬(([1, 2] : List ℚ).sum = 7) ∧
    ([1, 2] : List ℚ) ≠ [1, 2, 4] := by
  refine ⟨?_, by norm_num, by norm_num, by simp⟩
  norm_num [with_retry_run, retryLoop, wait_exponential, isRetryableException,
    pyMin, pyMax]

/-- C3 (amended): when every invocation fails with a matching transient
error, the wrapped call performs exactly `max_attempts - 1` backoff
sleeps, and the sleep after failed attempt number `n` (1-based, so the
i-th sleep has `n = i+1`) is `max(max(0, min_wait), min(2^(n-1), max_wait))`
— tenacity's `wait_exponential` with `multiplier=1`, where `min_wait` is a
lower clamp, not a multiplier.  For the default policy this gives waits
of 1s and 2s, ≈3s total, before the failure is surfaced. -/
theorem C3_backoff_schedule (maxAttempts : ℕ) (minW maxW : ℚ)
    (outcomes : ℕ → Except PyException α) (err : ℕ → PyException)
    (hpos : 1 ≤ maxAttempts)
    (hfail : ∀ n, 1 ≤ n → n ≤ maxAttempts →
      outcomes n = .error (err n) ∧ isRetryableException (err n) = true) :
    (with_retry_run maxAttempts minW maxW outcomes).2 =
      (List.range (maxAttempts - 1)).map (fun i =>
        pyMax (pyMax 0 minW) (pyMin (2 ^ i) maxW)) := by
  rw [with_retry_run]
  have := retryLoop_sleeps outcomes minW maxW (maxAttempts - 1) 1
    (fun k hk1 hk2 => ⟨err k, (hfail k hk1 (by omega)).1, (hfail k hk1 (by omega)).2⟩)
  rw [this]
  exact List.map_congr_left (fun i _ => by
    rw [wait_exponential, show 1 + i - 1 = i by omega, one_mul])

/-- Witness for C3 at the default policy: the sleeps are the two values
`max(max(0,1), min(2^i, 10))` for `i = 0, 1`, i.e. 1s and 2s. -/
theorem C3_witness :
    (with_retry_run 3 1 10
        (fun _ => (.error (.timeoutError "t") : Except PyException Unit))).2 =
      (List.range 2).map (fun i => pyMax (pyMax 0 1) (pyMin (2 ^ i) 10)) :=
  C3_backoff_schedule 3 1 10 _ (fun _ => .timeoutError "t") (by norm_num)
    (fun n h1 h2 => ⟨rfl, rfl⟩)

/-! ## Claim C4 -/

/-- C4: when the critical sub-fetch raises, `fetch` does not raise past
the collector boundary: it returns a result with `status="failed"` and
`error` populated, the echoed request parameters already set, the
collected/optional fields at their defaults, and (PyTrends) returns
immediately without attempting any optional sub-fetch — the result does
not depend on the optional oracles at all.  Stated for the two collectors
the claim cites: PyTrends (critical = `get_interest_over_time`) and GNews
(critical = `client.search`). -/
theorem C4_critical_failure_aborts
    (specP : PyTrendsCollectSpec) (clientP : PyTrendsClientOracle) (e : PyException)
    (hP : clientP.get_interest_over_time = .error e)
    (specG : GNewsCollectSpec) (fromiso : String → Option String)
    (eG : PyException) :
    (let r := PyTrendsCollector.fetch specP clientP
     r.status = "failed" ∧
     r.error = some ("Failed to fetch interest over time: " ++ e.str) ∧
     r.keywords = specP.keywords ∧ r.timeframe = specP.timeframe ∧
     r.geo = specP.geo ∧ r.interest_over_time = [] ∧
     r.related_queries_top = [] ∧ r.related_queries_rising = [] ∧
     r.interest_by_region = [] ∧
     (∀ rel reg, PyTrendsCollector.fetch specP
        { clientP with get_related_queries := rel,
                       get_interest_by_region := reg } = r)) ∧
    (let rG := GNewsCollector.fetch specG fromiso (.error eG)
     rG.status = "failed" ∧ rG.error = some eG.str ∧
     rG.query = specG.query ∧ rG.language = specG.language ∧
     rG.country = specG.country ∧ rG.category = specG.category ∧
     rG.articles = [] ∧ rG.total_articles = 0) := by
  constructor
  · refine ⟨?_, ?_, ?_, ?_, ?_, ?_, ?_, ?_, ?_, ?_⟩ <;>
      simp [PyTrendsCollector.fetch, hP]
  · refine ⟨?_, ?_, ?_, ?_, ?_, ?_, ?_, ?_⟩ <;>
      simp [GNewsCollector.fetch]

/-- Witness for C4: a concrete spec and a client whose critical call
raises `DataFetchError`. -/
theorem C4_witness :
    (PyTrendsCollector.fetch
        ⟨["bitcoin"], "today 3-m", "US", 0, true, true⟩
        ⟨.error (.dataFetchError "The request failed"),
         .ok [], .ok ⟨[]⟩⟩).status = "failed" ∧
    (GNewsCollector.fetch ⟨"bitcoin", some "en", none, none, 10⟩ (fun s => some s)
        (.error (.dataFetchError "The request failed"))).status = "failed" :=
  ⟨((C4_critical_failure_aborts
      ⟨["bitcoin"], "today 3-m", "US", 0, true, true⟩
      ⟨.error (.dataFetchError "The request failed"), .ok [], .ok ⟨[]⟩⟩
      (.dataFetchError "The request failed") rfl
      ⟨"bitcoin", some "en", none, none, 10⟩ (fun s => some s)
      (.dataFetchError "The request failed")).1).1,
   ((C4_critical_failure_aborts
      ⟨["bitcoin"], "today 3-m", "US", 0, true, true⟩
      ⟨.error (.dataFetchError "The request failed"), .ok [], .ok ⟨[]⟩⟩
      (.dataFetchError "The request failed") rfl
      ⟨"bitcoin", some "en", none, none, 10⟩ (fun s => some s)
      (.dataFetchError "The request failed")).2).1⟩

/-! ## Claim C5 -/

/-- C5: when the critical call succeeds and the optional related-queries
call raises, the failure is absorbed: the related fields stay at their
defaults, the remaining optional fetch (interest by region) is still
processed from its own oracle, and the result reports
`status="success"` with no error. -/
theorem C5_optional_failure_absorbed
    (spec : PyTrendsCollectSpec) (client : PyTrendsClientOracle)
    (df : InterestFrame) (e : PyException) (rf : RegionFrame)
    (hmain : client.get_interest_over_time = .ok df)
    (hrelOn : spec.include_related_queries = true)
    (hrel : client.get_related_queries = .error e)
    (hregOn : spec.include_interest_by_region = true)
    (hreg : client.get_interest_by_region = .ok rf) :
    let r := PyTrendsCollector.fetch spec client
    r.status = "success" ∧ r.error = none ∧
    r.related_queries_top = [] ∧ r.related_queries_rising = [] ∧
    r.interest_by_region = processRegion spec.keywords rf ∧
    r.interest_over_time = processInterest spec.keywords df := by
  refine ⟨?_, ?_, ?_, ?_, ?_, ?_⟩ <;>
    simp [PyTrendsCollector.fetch, hmain, hrelOn, hrel, hregOn, hreg]

/-- Witness for C5: related queries raise, interest by region succeeds
with one positive cell. -/
theorem C5_witness :
    (PyTrendsCollector.fetch ⟨["bitcoin"], "today 3-m", "", 0, true, true⟩
        ⟨.ok ⟨[("2024-01-01", [("bitcoin", 50)])], none⟩,
         .error (.dataFetchError "related queries failed"),
         .ok ⟨[("bitcoin", [("US", 80)])]⟩⟩).status = "success" ∧
    (PyTrendsCollector.fetch ⟨["bitcoin"], "today 3-m", "", 0, true, true⟩
        ⟨.ok ⟨[("2024-01-01", [("bitcoin", 50)])], none⟩,
         .error (.dataFetchError "related queries failed"),
         .ok ⟨[("bitcoin", [("US", 80)])]⟩⟩).interest_by_region =
      processRegion ["bitcoin"] ⟨[("bitcoin", [("US", 80)])]⟩ := by
  have h := C5_optional_failure_absorbed
    ⟨["bitcoin"], "today 3-m", "", 0, true, true⟩
    ⟨.ok ⟨[("2024-01-01", [("bitcoin", 50)])], none⟩,
     .error (.dataFetchError "related queries failed"),
     .ok ⟨[("bitcoin", [("US", 80)])]⟩⟩
    ⟨[("2024-01-01", [("bitcoin", 50)])], none⟩
    (.dataFetchError "related queries failed")
    ⟨[("bitcoin", [("US", 80)])]⟩ rfl rfl rfl rfl rfl
  exact ⟨h.1, h.2.2.2.2.1⟩

/-! ## Claim C6 -/

/-- C6: a per-item failure during iteration skips only that item: the
loop continues, the batch is not aborted, and the error is not surfaced.
GNews part: one unparseable article in the middle of the batch leaves a
`status="success"` result whose `articles` are exactly the parses of the
other articles (and `total_articles` still counts the raw batch).
Reddit part: a failing subreddit is skipped and the next subreddit is
still processed; within it, one submission whose comment fetch raises is
skipped and the remaining submissions are returned. -/
theorem C6_per_item_isolation
    (specG : GNewsCollectSpec) (fromiso : String → Option String)
    (pre post : List RawArticle) (bad : RawArticle) (e : PyException)
    (hbad : process_article fromiso bad = .error e)
    (specR : RedditCollectSpec) (n1 n2 : String) (e1 e2 : PyException)
    (fs : String → Except PyException (List Submission))
    (fc : Submission → Except PyException (List String))
    (preS postS : List Submission) (badS : Submission)
    (hsubs : specR.subreddits = [n1, n2])
    (hfs1 : fs n1 = .error e1)
    (hfs2 : fs n2 = .ok (preS ++ badS :: postS))
    (hinc : specR.include_comments = true)
    (hstick : specR.skip_stickied = false)
    (hfc : fc badS = .error e2) :
    (let rG := GNewsCollector.fetch specG fromiso (.ok (pre ++ bad :: post))
     rG.status = "success" ∧ rG.error = none ∧
     rG.total_articles = pre.length + 1 + post.length ∧
     rG.articles =
       pre.filterMap (fun a => (process_article fromiso a).toOption) ++
       post.filterMap (fun a => (process_article fromiso a).toOption)) ∧
    RedditCollector.fetch specR fs fc =
      (preS ++ postS).filterMap (process_submission specR fc n2) := by
  constructor
  · refine ⟨?_, ?_, ?_, ?_⟩ <;>
      · simp [GNewsCollector.fetch, List.filterMap_append, hbad, Except.toOption]
        try omega
  · have hbadNone : process_submission specR fc n2 badS = none := by
      simp [process_submission, hstick, hinc, hfc]
    simp [RedditCollector.fetch, hsubs, hfs1, hfs2, List.filterMap_append,
      List.filterMap_cons, hbadNone]

/-- Witness for C6: one article with an unparseable date between two good
ones; subreddit 1 fails, subreddit 2 has a middle submission whose
comment fetch raises. -/
theorem C6_witness :
    (GNewsCollector.fetch ⟨"q", some "en", none, none, 10⟩ (fun _ => none)
        (.ok [⟨some "A", none, none, some "u1", none, none, none, none⟩])).status =
      "success" ∧
    RedditCollector.fetch ⟨["python", "programming"], "hot", "day", 20, true, false⟩
        (fun n => if n = "python" then .error (.dataFetchError "boom")
                  else .ok [⟨"s1", "T1", none, none, 0, 0, 0, "/r/p/1", false⟩])
        (fun _ => .error (.dataFetchError "comments failed")) =
      ([] : List RedditPost) := by
  have h := C6_per_item_isolation ⟨"q", some "en", none, none, 10⟩ (fun _ => none)
    [] [] ⟨some "A", none, none, some "u1", none, none, none, none⟩ (.keyError "publishedAt")
    rfl
    ⟨["python", "programming"], "hot", "day", 20, true, false⟩
    "python" "programming" (.dataFetchError "boom") (.dataFetchError "comments failed")
    (fun n => if n = "python" then .error (.dataFetchError "boom")
              else .ok [⟨"s1", "T1", none, none, 0, 0, 0, "/r/p/1", false⟩])
    (fun _ => .error (.dataFetchError "comments failed"))
    [] [] ⟨"s1", "T1", none, none, 0, 0, 0, "/r/p/1", false⟩
    rfl rfl rfl rfl rfl rfl
  exact ⟨h.1.1, h.2⟩

/-! ## Claim C8 -/

/-- One `acquire()` call preserves the token-bucket invariant, for any
non-negative elapsed time: the refill is capped at the capacity by the
`min`, and the debit either subtracts 1 from a balance that was at least
1 or zeroes the balance after the sleep. -/
theorem acquire_preserves_inv (C : ℚ) (hC : 0 ≤ C) (s : RateLimiter) (e : ℚ)
    (he : 0 ≤ e) (h : RateLimiterInv C s) : RateLimiterInv C (s.acquire e).1 := by
  obtain ⟨hr, h0, hc⟩ := h
  have hrefill : 0 ≤ e * (s.rate / 60) := by
    apply mul_nonneg he
    rw [hr]
    positivity
  simp only [RateLimiter.acquire, pyMin, RateLimiterInv]
  split_ifs with h1 h2 h3 <;>
    exact ⟨by dsimp only; exact hr, by dsimp only; linarith, by dsimp only; linarith⟩

/-- Any sequence of `acquire()` calls with non-negative elapsed times
preserves the invariant. -/
theorem run_preserves_inv (C : ℚ) (hC : 0 ≤ C) :
    ∀ (els : List ℚ), (∀ e ∈ els, 0 ≤ e) → ∀ s, RateLimiterInv C s →
      RateLimiterInv C (s.run els) := by
  intro els
  induction els with
  | nil => intro _ s h; exact h
  | cons e es ih =>
    intro hels s h
    rw [RateLimiter.run]
    exact ih (fun x hx => hels x (List.mem_cons_of_mem e hx))
      (s.acquire e).1
      (acquire_preserves_inv C hC s e (hels e (List.mem_cons_self e es)) h)

/-- C8: for a limiter of capacity `C` and any sequence of `acquire()`
calls with arbitrary non-negative elapsed wall-clock times between them,
`0 <= tokens <= C` holds after every prefix of the sequence (hence before
and after every `acquire()`); in particular the balance never exceeds `C`
no matter how long the limiter sat idle. -/
theorem C8_token_invariant (C : ℚ) (hC : 0 ≤ C) (els : List ℚ)
    (hels : ∀ e ∈ els, 0 ≤ e) (n : ℕ) :
    0 ≤ ((RateLimiter.init C).run (els.take n)).tokens ∧
    ((RateLimiter.init C).run (els.take n)).tokens ≤ C := by
  have h := run_preserves_inv C hC (els.take n)
    (fun e he => hels e (List.take_subset n els he))
    (RateLimiter.init C) ⟨rfl, hC, le_refl C⟩
  exact ⟨h.2.1, h.2.2⟩

/-- Witness for C8: capacity 2, a long idle time then a back-to-back
call. -/
theorem C8_witness :
    0 ≤ ((RateLimiter.init 2).run ([1000, 0].take 2)).tokens ∧
    ((RateLimiter.init 2).run ([1000, 0].take 2)).tokens ≤ 2 :=
  C8_token_invariant 2 (by norm_num) [1000, 0]
    (by intro e he; simp at he; rcases he with h | h <;> simp [h]) 2

/-! ## Claim C9 -/

/-- A zero-elapsed `acquire()` on a bucket holding `t` tokens with
`1 ≤ t ≤ rate` debits exactly one token and does not sleep. -/
theorem acquire_zero_debit (R t : ℚ) (h1 : 1 ≤ t) (h2 : t ≤ R) :
    RateLimiter.acquire ⟨R, t⟩ 0 = (⟨R, t - 1⟩, 0) := by
  have hx : t + 0 * (R / 60) = t := by ring
  have hmin : pyMin R t = t := by
    unfold pyMin
    split_ifs with h
    · linarith
    · rfl
  simp only [RateLimiter.acquire, hx, hmin]
  rw [if_neg (by linarith)]

/-- Burst lemma: starting from a bucket of rate `R ≥ 1` holding exactly
`j` tokens, `j+1` back-to-back `acquire()` calls sleep 0 on the first
`j` calls and `60/R` on the last one. -/
theorem runSleeps_burst (R : ℚ) (hR : 1 ≤ R) :
    ∀ j : ℕ, (j : ℚ) ≤ R →
      RateLimiter.runSleeps ⟨R, (j : ℚ)⟩ (List.replicate (j + 1) 0) =
        List.replicate j 0 ++ [60 / R] := by
  intro j
  induction j with
  | zero =>
    intro _
    have hmin : pyMin R ((0 : ℚ) + 0 * (R / 60)) = 0 := by
      unfold pyMin
      rw [if_neg (by norm_num; linarith)]
      ring
    simp only [Nat.cast_zero, List.replicate, RateLimiter.runSleeps,
      RateLimiter.acquire, hmin]
    rw [if_pos (by norm_num)]
    norm_num
  | succ n ih =>
    intro hle
    have hcast : ((n + 1 : ℕ) : ℚ) = (n : ℚ) + 1 := by push_cast; ring
    rw [show (n : ℕ) + 1 + 1 = (n + 1) + 1 by omega, List.replicate_succ,
      RateLimiter.runSleeps]
    have hdebit : RateLimiter.acquire ⟨R, ((n + 1 : ℕ) : ℚ)⟩ 0 =
        (⟨R, (n : ℚ)⟩, 0) := by
      rw [acquire_zero_debit R _ (by rw [hcast]; linarith [Nat.cast_nonneg (α := ℚ) n])
        (by exact hle)]
      congr 2
      rw [hcast]
      ring
    rw [hdebit]
    have hnle : (n : ℚ) ≤ R := by rw [hcast] at hle; linarith
    rw [ih hnle, List.replicate_succ, List.cons_append]

/-- C9: on a fresh `RateLimiter(C)`, issuing `C+1` back-to-back
`acquire()` calls (zero elapsed time between them) makes the first `C`
calls complete without sleeping and the `(C+1)`-th call sleep exactly
`60/C` seconds — hence the `(C+1)`-th completes no sooner than `60/C`
seconds after the `C`-th. -/
theorem C9_burst_sleep (C : ℕ) (hC : 1 ≤ C) :
    (RateLimiter.init (C : ℚ)).runSleeps (List.replicate (C + 1) 0) =
      List.replicate C 0 ++ [60 / (C : ℚ)] := by
  have h := runSleeps_burst (C : ℚ) (by exact_mod_cast hC) C le_rfl
  exact h

/-- Witness for C9 at `C = 60`: 61 sequential calls — the 61st sleeps
`60/60 = 1` second. -/
theorem C9_witness :
    (RateLimiter.init (60 : ℚ)).runSleeps (List.replicate 61 0) =
      List.replicate 60 0 ++ [60 / (60 : ℚ)] :=
  C9_burst_sleep 60 (by norm_num)

/-! ## Helper lemmas about the YouTube fan-out -/

/-- The gather-conversion step of `YouTubeCollector.fetch` is the
identity on task outcomes, all of which are `ok` since `_process_video`
catches every exception. -/
theorem gather_convert_map (cfg : YouTubeClientConfig) (client : YouTubeClientOracle)
    (us : List String) :
    (us.map (fun u => (u, (Except.ok (process_video cfg client u) :
        Except PyException YouTubeVideo)))).map
      (fun ur => match ur.2 with
        | .ok v => v
        | .error e => gatherFailedVideo ur.1 e) =
    us.map (process_video cfg client) := by
  rw [List.map_map]
  exact List.map_congr_left (fun u _ => rfl)

/-- A fetch over a non-empty list of valid direct URLs (no channels) maps
`_process_video` over the URLs, one record per URL. -/
theorem fetch_urls_maps (cfg : YouTubeClientConfig) (client : YouTubeClientOracle)
    (spec : YouTubeCollectSpec) (us : List String)
    (hurls : spec.urls = some us) (hch : spec.channels = none)
    (hvalid : ∀ u ∈ us, validate_youtube_url u = true)
    (hne : us ≠ []) :
    YouTubeCollector.fetch cfg client spec = us.map (process_video cfg client) := by
  have hfilter : us.filter validate_youtube_url = us :=
    List.filter_eq_self.mpr (fun a ha => hvalid a ha)
  have hempty : us.isEmpty = false := by
    cases us with
    | nil => exact absurd rfl hne
    | cons a l => rfl
  rw [YouTubeCollector.fetch, hurls, hch]
  simp only [truthyList, hempty, Bool.not_false, if_true, Bool.false_eq_true,
    if_false, Option.getD_some, hfilter, List.append_nil]
  exact gather_convert_map cfg client us

/-- A fetch over two channels of which the first raises drops the failed
channel's task (logged, no record) and processes the second channel's
URLs. -/
theorem fetch_channels_skips_failed (cfg : YouTubeClientConfig)
    (client : YouTubeClientOracle) (spec : YouTubeCollectSpec)
    (chBad chGood : String) (e2 : PyException) (us : List String)
    (hurls : spec.urls = none) (hch : spec.channels = some [chBad, chGood])
    (hcb : client.get_channel_videos chBad = .error e2)
    (hcg : client.get_channel_videos chGood = .ok us)
    (hne : us ≠ []) :
    YouTubeCollector.fetch cfg client spec = us.map (process_video cfg client) := by
  have hempty : us.isEmpty = false := by
    cases us with
    | nil => exact absurd rfl hne
    | cons a l => rfl
  rw [YouTubeCollector.fetch, hurls, hch]
  simp only [truthyList, List.isEmpty_cons, Bool.not_false, if_true,
    Bool.false_eq_true, if_false, Option.getD_some, List.foldl_cons,
    List.foldl_nil, hcb, hcg, List.nil_append]
  rw [if_neg (by simp [hempty])]
  exact gather_convert_map cfg client us


/-! ## Claim C7 -/

set_option maxRecDepth 16384 in
/-- C7 (counterexample): for a fetch over the two channel targets
`["badchan", "goodchan"]` where exactly the first channel's sub-fetch
raises and the second yields one video that processes successfully, the
returned collection has ONE entry and NO failed entry — not the claimed
N = 2 entries with exactly one marked failed: a failing channel task is
only logged and contributes no failed-status record. -/
theorem C7_counterexample :
    (YouTubeCollector.fetch ⟨3600⟩
        ⟨fun ch => if ch = "goodchan"
            then .ok ["https://youtube.com/watch?v=dQw4w9WgXcQ"]
            else .error (.dataFetchError "channel fetch failed"),
          fun _ => .ok ⟨"T", "D", 10, none, 0, 0, "C", "CID", [], [], "th"⟩,
          fun _ => .ok ("tr", "youtube_api")⟩
        ⟨none, some ["badchan", "goodchan"], 5, 7⟩).length = 1 ∧
    (YouTubeCollector.fetch ⟨3600⟩
        ⟨fun ch => if ch = "goodchan"
            then .ok ["https://youtube.com/watch?v=dQw4w9WgXcQ"]
            else .error (.dataFetchError "channel fetch failed"),
          fun _ => .ok ⟨"T", "D", 10, none, 0, 0, "C", "CID", [], [], "th"⟩,
          fun _ => .ok ("tr", "youtube_api")⟩
        ⟨none, some ["badchan", "goodchan"], 5, 7⟩).countP
      (fun v => v.status == "failed") = 0 := by
  constructor <;> rfl

/-- C7 (amended): for a fetch over N valid direct URLs where exactly one
URL's metadata sub-fetch raises and every other URL processes
successfully, the returned collection has N entries — one per URL, in
order — with exactly one marked failed (carrying the raised error via
the failed record) and the other N-1 marked successful; one task's error
never fails the batch.  For channel targets, by contrast, a channel
whose sub-fetch raises is only logged and skipped: it contributes no
entries at all (no failed-status record), while the remaining channels'
videos are still processed. -/
theorem C7_fanout_isolation (cfg : YouTubeClientConfig) (client : YouTubeClientOracle)
    (pre post : List String) (badUrl vid : String) (e : PyException)
    (hvid : extract_video_id badUrl = some vid)
    (hbadm : client.get_video_metadata badUrl = .error e)
    (hok : ∀ u ∈ pre ++ post, (process_video cfg client u).status = "success")
    (spec : YouTubeCollectSpec)
    (hurls : spec.urls = some (pre ++ badUrl :: post))
    (hch : spec.channels = none)
    (hvalid : ∀ u ∈ pre ++ badUrl :: post, validate_youtube_url u = true)
    (spec2 : YouTubeCollectSpec) (chBad chGood : String) (e2 : PyException)
    (us : List String)
    (hurls2 : spec2.urls = none)
    (hch2 : spec2.channels = some [chBad, chGood])
    (hcb : client.get_channel_videos chBad = .error e2)
    (hcg : client.get_channel_videos chGood = .ok us)
    (hne : us ≠ []) :
    (let vids := YouTubeCollector.fetch cfg client spec
     vids = (pre ++ badUrl :: post).map (process_video cfg client) ∧
     vids.length = pre.length + 1 + post.length ∧
     process_video cfg client badUrl = failedVideo vid badUrl e ∧
     vids.countP (fun v => v.status == "failed") = 1 ∧
     vids.countP (fun v => v.status == "success") = pre.length + post.length) ∧
    YouTubeCollector.fetch cfg client spec2 = us.map (process_video cfg client) := by
  have hbadproc : process_video cfg client badUrl = failedVideo vid badUrl e := by
    rw [process_video, hvid, hbadm]
  have hmap := fetch_urls_maps cfg client spec (pre ++ badUrl :: post) hurls hch hvalid
    (by cases pre <;> simp)
  refine ⟨⟨hmap, ?_, hbadproc, ?_, ?_⟩,
    fetch_channels_skips_failed cfg client spec2 chBad chGood e2 us hurls2 hch2
      hcb hcg hne⟩
  · rw [hmap]
    simp only [List.length_map, List.length_append, List.length_cons]
    omega
  · rw [hmap, List.map_append, List.map_cons, List.countP_append, List.countP_cons]
    have h1 : (pre.map (process_video cfg client)).countP
        (fun v => v.status == "failed") = 0 :=
      List.countP_eq_zero.mpr (fun v hv => by
        obtain ⟨u, hu, rfl⟩ := List.mem_map.mp hv
        simp [hok u (List.mem_append_left post hu)])
    have h2 : (post.map (process_video cfg client)).countP
        (fun v => v.status == "failed") = 0 :=
      List.countP_eq_zero.mpr (fun v hv => by
        obtain ⟨u, hu, rfl⟩ := List.mem_map.mp hv
        simp [hok u (List.mem_append_right pre hu)])
    rw [h1, h2, hbadproc]
    rfl
  · rw [hmap, List.map_append, List.map_cons, List.countP_append, List.countP_cons]
    have h1 : (pre.map (process_video cfg client)).countP
        (fun v => v.status == "success") = pre.length := by
      rw [← List.length_map pre (process_video cfg client)]
      exact List.countP_eq_length.mpr (fun v hv => by
        obtain ⟨u, hu, rfl⟩ := List.mem_map.mp hv
        simp [hok u (List.mem_append_left post hu)])
    have h2 : (post.map (process_video cfg client)).countP
        (fun v => v.status == "success") = post.length := by
      rw [← List.length_map post (process_video cfg client)]
      exact List.countP_eq_length.mpr (fun v hv => by
        obtain ⟨u, hu, rfl⟩ := List.mem_map.mp hv
        simp [hok u (List.mem_append_right pre hu)])
    rw [h1, h2, hbadproc]
    rfl

set_option maxRecDepth 16384 in
/-- Witness for C7: one bad URL among two valid direct URLs, and the
two-channel scenario. -/
theorem C7_witness :
    (YouTubeCollector.fetch ⟨3600⟩
        ⟨fun ch => if ch = "goodchan"
            then .ok ["https://youtube.com/watch?v=dQw4w9WgXcQ"]
            else .error (.dataFetchError "channel fetch failed"),
          fun u => if u = "https://youtu.be/AAAAAAAAAAA"
            then .error (.dataFetchError "metadata fetch failed")
            else .ok ⟨"T", "D", 10, none, 0, 0, "C", "CID", [], [], "th"⟩,
          fun _ => .ok ("tr", "youtube_api")⟩
        ⟨some ["https://youtu.be/AAAAAAAAAAA",
               "https://youtube.com/watch?v=dQw4w9WgXcQ"], none, 5, 7⟩).countP
      (fun v => v.status == "failed") = 1 ∧
    YouTubeCollector.fetch ⟨3600⟩
        ⟨fun ch => if ch = "goodchan"
            then .ok ["https://youtube.com/watch?v=dQw4w9WgXcQ"]
            else .error (.dataFetchError "channel fetch failed"),
          fun u => if u = "https://youtu.be/AAAAAAAAAAA"
            then .error (.dataFetchError "metadata fetch failed")
            else .ok ⟨"T", "D", 10, none, 0, 0, "C", "CID", [], [], "th"⟩,
          fun _ => .ok ("tr", "youtube_api")⟩
        ⟨none, some ["badchan", "goodchan"], 5, 7⟩ =
      ["https://youtube.com/watch?v=dQw4w9WgXcQ"].map (process_video ⟨3600⟩
        ⟨fun ch => if ch = "goodchan"
            then .ok ["https://youtube.com/watch?v=dQw4w9WgXcQ"]
            else .error (.dataFetchError "channel fetch failed"),
          fun u => if u = "https://youtu.be/AAAAAAAAAAA"
            then .error (.dataFetchError "metadata fetch failed")
            else .ok ⟨"T", "D", 10, none, 0, 0, "C", "CID", [], [], "th"⟩,
          fun _ => .ok ("tr", "youtube_api")⟩) := by
  have h := C7_fanout_isolation ⟨3600⟩
    ⟨fun ch => if ch = "goodchan"
        then .ok ["https://youtube.com/watch?v=dQw4w9WgXcQ"]
        else .error (.dataFetchError "channel fetch failed"),
      fun u => if u = "https://youtu.be/AAAAAAAAAAA"
        then .error (.dataFetchError "metadata fetch failed")
        else .ok ⟨"T", "D", 10, none, 0, 0, "C", "CID", [], [], "th"⟩,
      fun _ => .ok ("tr", "youtube_api")⟩
    [] ["https://youtube.com/watch?v=dQw4w9WgXcQ"]
    "https://youtu.be/AAAAAAAAAAA" "AAAAAAAAAAA"
    (.dataFetchError "metadata fetch failed")
    (by decide) rfl
    (by intro u hu; simp only [List.nil_append, List.mem_singleton] at hu
        subst hu; decide)
    ⟨some ["https://youtu.be/AAAAAAAAAAA",
           "https://youtube.com/watch?v=dQw4w9WgXcQ"], none, 5, 7⟩
    rfl rfl
    (by intro u hu
        simp at hu
        rcases hu with rfl | rfl <;> decide)
    ⟨none, some ["badchan", "goodchan"], 5, 7⟩ "badchan" "goodchan"
    (.dataFetchError "channel fetch failed")
    ["https://youtube.com/watch?v=dQw4w9WgXcQ"]
    rfl rfl rfl rfl (by simp)
  exact ⟨h.1.2.2.2.1, h.2⟩

/-! ## Claim C10 -/

/-- C10: a valid video URL whose fetched metadata reports a duration
strictly greater than `config.max_video_length` yields a `YouTubeVideo`
record with `status="failed"` and an error message of the form
`"Video too long: ..."` (so containing `Video too long`); no exception
escapes, the transcript oracle is never consulted for it (the result is
the same for every transcript oracle), and in a fetch over a list of
valid URLs every URL — this one included — still maps to its own
`_process_video` record. -/
theorem C10_too_long_video (cfg : YouTubeClientConfig) (client : YouTubeClientOracle)
    (url vid : String) (m : VideoMetadata)
    (hvid : extract_video_id url = some vid)
    (hm : client.get_video_metadata url = .ok m)
    (hd : cfg.max_video_length < m.duration)
    (spec : YouTubeCollectSpec) (pre post : List String)
    (hurls : spec.urls = some (pre ++ url :: post))
    (hch : spec.channels = none)
    (hvalid : ∀ u ∈ pre ++ url :: post, validate_youtube_url u = true) :
    process_video cfg client url =
      failedVideo vid url (.valueError ("Video too long: " ++ toString m.duration ++
        "s (max: " ++ toString cfg.max_video_length ++ "s)")) ∧
    (process_video cfg client url).status = "failed" ∧
    (process_video cfg client url).error =
      some ("Video too long: " ++ toString m.duration ++
        "s (max: " ++ toString cfg.max_video_length ++ "s)") ∧
    (∀ tr, process_video cfg { client with get_transcript := tr } url =
      process_video cfg client url) ∧
    YouTubeCollector.fetch cfg client spec =
      (pre ++ url :: post).map (process_video cfg client) := by
  have hproc : process_video cfg client url =
      failedVideo vid url (.valueError ("Video too long: " ++ toString m.duration ++
        "s (max: " ++ toString cfg.max_video_length ++ "s)")) := by
    simp [process_video, hvid, hm, hd]
  refine ⟨hproc, by rw [hproc]; rfl, by rw [hproc]; rfl, ?_, ?_⟩
  · intro tr
    simp [process_video, hvid, hm, hd]
  · exact fetch_urls_maps cfg client spec (pre ++ url :: post) hurls hch hvalid
      (by cases pre <;> simp)

set_option maxRecDepth 16384 in
/-- Witness for C10: a 200s video against a 100s limit. -/
theorem C10_witness :
    (process_video ⟨100⟩
        ⟨fun _ => .ok [],
          fun _ => .ok ⟨"T", "D", 200, none, 0, 0, "C", "CID", [], [], "th"⟩,
          fun _ => .ok ("tr", "youtube_api")⟩
        "https://youtube.com/watch?v=dQw4w9WgXcQ").status = "failed" ∧
    (process_video ⟨100⟩
        ⟨fun _ => .ok [],
          fun _ => .ok ⟨"T", "D", 200, none, 0, 0, "C", "CID", [], [], "th"⟩,
          fun _ => .ok ("tr", "youtube_api")⟩
        "https://youtube.com/watch?v=dQw4w9WgXcQ").error =
      some ("Video too long: " ++ toString (200 : ℤ) ++
        "s (max: " ++ toString (100 : ℤ) ++ "s)") := by
  have h := C10_too_long_video ⟨100⟩
    ⟨fun _ => .ok [],
      fun _ => .ok ⟨"T", "D", 200, none, 0, 0, "C", "CID", [], [], "th"⟩,
      fun _ => .ok ("tr", "youtube_api")⟩
    "https://youtube.com/watch?v=dQw4w9WgXcQ" "dQw4w9WgXcQ"
    ⟨"T", "D", 200, none, 0, 0, "C", "CID", [], [], "th"⟩
    (by decide) rfl (by decide)
    ⟨some ["https://youtube.com/watch?v=dQw4w9WgXcQ"], none, 5, 7⟩ [] []
    rfl rfl
    (by intro u hu; simp only [List.nil_append, List.mem_singleton] at hu
        subst hu; decide)
  exact ⟨h.2.1, h.2.2.1⟩

end Collectors
